import Mathlib

/-!
Shallow embedding of `cli_script_commands.py`.

The file models the single class `ScriptCommands` together with the slice of
its two collaborators that the code actually exercises:

* `docstring_parser.parse` — modelled on already-parsed docstrings: a Python
  function carries `doc : Option Docstring`; `parse None` (a missing
  `__doc__`) returns an empty `Docstring` (no params, no descriptions),
  which is the real library's behaviour, and a present docstring is carried
  in parsed form.
* `argparse` — sub-command dispatch plus the three argument shapes the code
  configures (`action="store_true"`, `nargs="+"` with `type=str`,
  `nargs="?"` with a scalar `type`), with argparse's defaults
  (`store_true` → `False`, everything else → `None`), left-to-right token
  consumption, greedy one-or-more matching, and usage errors modelled as a
  `SystemExit`-style outcome distinct from ordinary exceptions.
* the `builtins` namespace — a finite table holding the names this
  development exercises; `getattr(builtins, s)` on a name outside the table
  raises `AttributeError`.

Python `None` is `NsValue.vNone`; a Python exception escaping a method is an
`Except.error`; printing is modelled as a returned list of stdout lines.
-/

set_option autoImplicit false

namespace CliScript

/-- The Python primitive types relevant here, as distinguishable objects of
the `builtins` namespace. -/
inductive PyType where
  | pyBool
  | pyInt
  | pyFloat
  | pyStr
  | pyList
  | pyDict
  | pyTuple
deriving DecidableEq, Repr

/-- An object found in the `builtins` namespace: either a type object or a
plain builtin function (such as `print` or `len`), which is *not* a type but
resolves all the same under `getattr(builtins, name)`. -/
inductive BuiltinObj where
  | btype (t : PyType)
  | bfun (name : String)
deriving DecidableEq, Repr

/-- Model of `getattr(builtins, name)`: the finite slice of Python's
`builtins` namespace exercised in this development.  `none` models the
`AttributeError` that `getattr` raises for an unknown attribute.  Any other
member of the real `builtins` namespace would be one more row here. -/
def getattrBuiltins : String → Option BuiltinObj
  | "bool" => some (.btype .pyBool)
  | "int" => some (.btype .pyInt)
  | "float" => some (.btype .pyFloat)
  | "str" => some (.btype .pyStr)
  | "list" => some (.btype .pyList)
  | "dict" => some (.btype .pyDict)
  | "tuple" => some (.btype .pyTuple)
  | "print" => some (.bfun "print")
  | "len" => some (.bfun "len")
  | _ => none

/-- One parameter descriptor of a parsed docstring, as `docstring_parser`
yields it (`DocstringParam`): name, optionality marker, declared type name,
description. -/
structure DocParam where
  arg_name : String
  is_optional : Bool
  type_name : String
  description : Option String
deriving DecidableEq, Repr

/-- A parsed docstring as `docstring_parser.parse` yields it. -/
structure Docstring where
  short_description : Option String
  long_description : Option String
  params : List DocParam
deriving DecidableEq, Repr

/-- Model of `docstring_parser.parse(function.__doc__)`.  When `__doc__` is
missing (`None`), every style parser of the library returns an empty
`Docstring` — no exception is raised.  A present docstring is modelled as
already parsed. -/
def parseDoc : Option Docstring → Docstring
  | none => { short_description := none, long_description := none, params := [] }
  | some d => d

/-- A Python function as handed to `add_function`: its `__name__`, its
(parsed) `__doc__`, and an identity for the callable object so that a later
invocation can be observed. -/
structure PyFunction where
  name : String
  doc : Option Docstring
  id : Nat
deriving DecidableEq, Repr

/-- A value stored in an `argparse` namespace attribute. -/
inductive NsValue where
  | vNone
  | vBool (b : Bool)
  | vInt (n : Int)
  | vStr (s : String)
  | vFloatLit (s : String)
  | vList (xs : List String)
  | vFunc (f : Nat)
deriving DecidableEq, Repr

/-- The `argparse.Namespace`: an insertion-ordered attribute map, as
`vars(ns)` exposes it. -/
abbrev Namespace := List (String × NsValue)

/-- Model of `setattr` on a namespace: overwrite in place when the attribute exists,
append otherwise (Python attribute dictionaries keep insertion order). -/
def setAttr (ns : Namespace) (k : String) (v : NsValue) : Namespace :=
  if ns.any (fun kv => kv.1 = k) then
    ns.map (fun kv => if kv.1 = k then (k, v) else kv)
  else
    ns ++ [(k, v)]

/-- Attribute read with the convention that the attributes this code reads
are always present (`cmd` is set by every parse). -/
def attrD (ns : Namespace) (k : String) : NsValue :=
  (ns.lookup k).getD .vNone

/-- Python truthiness of the namespace values, for `if not self._args.cmd`. -/
def truthy : NsValue → Bool
  | .vNone => false
  | .vBool b => b
  | .vInt n => n != 0
  | .vStr s => !s.data.isEmpty
  | .vFloatLit _ => true
  | .vList xs => !xs.isEmpty
  | .vFunc _ => true

/-- One entry of `func_spec["args"]` as `add_function` builds it:
the display name (`--`-prefixed when the docstring marked the parameter
optional), the resolved `type` object, and the help text. -/
structure ArgSettings where
  name : String
  type : BuiltinObj
  help : Option String
deriving DecidableEq, Repr

/-- The `func_spec` dictionary built by `add_function`. -/
structure FuncSpec where
  name : String
  help : Option String
  long_help : Option String
  function : Nat
  args : List ArgSettings
deriving DecidableEq, Repr

/-- The three argument shapes `_add_command` configures, i.e. the
`optional_params` dictionary it passes to `add_argument`. -/
inductive ArgShape where
  | storeTrue
  | listPlus
  | optScalar (t : BuiltinObj)
deriving DecidableEq, Repr

/-- An argument as recorded by `argparse.add_argument`: `argparse`
classifies the display name once at registration time — a name starting
with the prefix character is an optional (keyed by its option string, with
the dashes stripped off for the destination attribute), anything else a
positional. -/
structure ArgparseArg where
  dest : String
  optionString : Option String
  shape : ArgShape
  help : Option String
deriving DecidableEq, Repr

/-- Does `argparse` treat this string as an option string?  (First character
is the prefix character `-`.) -/
def isOption (s : String) : Bool :=
  match s.data with
  | [] => false
  | c :: _ => c = '-'

/-- Computes `argparse`'s destination for an option string: leading dashes stripped,
interior dashes replaced by underscores. -/
def destOf (s : String) : String :=
  String.mk ((s.data.dropWhile (fun c => c = '-')).map
    (fun c => if c = '-' then '_' else c))

/-- Model of `add_argument(name, **optional_params)` for the three shapes used by
`_add_command`. -/
def mkArgparseArg (a : ArgSettings) : ArgparseArg :=
  let shape : ArgShape :=
    if a.type = .btype .pyBool then .storeTrue
    else if a.type = .btype .pyList then .listPlus
    else .optScalar a.type
  if isOption a.name then
    { dest := destOf a.name, optionString := some a.name, shape := shape, help := a.help }
  else
    { dest := a.name, optionString := none, shape := shape, help := a.help }

/-- One configured sub-command of the parser, including the callable bound
by `set_defaults(func=...)`. -/
structure SubCommand where
  name : String
  help : Option String
  description : Option String
  args : List ArgparseArg
  func : Nat
deriving DecidableEq, Repr

/-- The state of a `ScriptCommands` object: the configured sub-commands
(most recently added first, so that name lookup sees the latest binding, as
the underlying name→parser dictionary does) and the stored parse result
`self._args` (`None` until `render_menu` stores one). -/
structure ScriptCommands where
  subcommands : List SubCommand
  _args : Option Namespace
deriving DecidableEq, Repr

/-- Model of `ScriptCommands.__init__`: empty sub-command table, `self._args = None`. -/
def ScriptCommands.init : ScriptCommands :=
  { subcommands := [], _args := none }

/-- The exception escaping `add_function` when a documented type name is not
an attribute of `builtins` (an `AttributeError` from `getattr`; the spec
calls this condition RegistrationError). -/
inductive RegError where
  | attributeError (type_name : String)
deriving DecidableEq, Repr

/-- The usage failures of the underlying `argparse` machinery; each one
makes `parse_args` print usage and raise `SystemExit`. -/
inductive UsageError where
  | invalidChoice (tok : String)
  | unrecognizedArgument (tok : String)
  | expectedAtLeastOne (name : String)
  | badConversion (ty : String) (tok : String)
  | requiredMissing (dest : String)
deriving DecidableEq, Repr

/-- Exceptions escaping `execute` before any callable is invoked:
`vars(None)` raises `TypeError` when nothing was parsed, and reading
`self._args.func` raises `AttributeError` when no sub-command bound one. -/
inductive ExecError where
  | typeErrorNoParse
  | attributeErrorNoFunc
  | typeErrorNotCallable
deriving DecidableEq, Repr

/-- Python's `long or short` for the `long_help` field: `or` falls through
on falsy values, and an empty string is falsy. -/
def pyOrStr (a b : Option String) : Option String :=
  match a with
  | some s => if s.data.isEmpty then b else some s
  | none => b

/-- The per-parameter entry of the `args` list comprehension in
`add_function`, evaluated left to right, raising at the first type name
`getattr` cannot resolve. -/
def buildArgs : List DocParam → Except RegError (List ArgSettings)
  | [] => .ok []
  | pa :: rest =>
    match getattrBuiltins pa.type_name with
    | none => .error (.attributeError pa.type_name)
    | some t => do
      let tail ← buildArgs rest
      .ok ({ name := (if pa.is_optional then "--" else "") ++ pa.arg_name,
             type := t, help := pa.description } :: tail)

/-- Model of `ScriptCommands._add_command`: create the named sub-command, add one
argument per `ArgSettings` choosing the shape from the resolved type, and
bind the callable via `set_defaults`. -/
def ScriptCommands._add_command (sc : ScriptCommands) (cs : FuncSpec) : ScriptCommands :=
  { sc with
    subcommands :=
      { name := cs.name
        help := cs.help
        description := cs.long_help
        args := cs.args.map mkArgparseArg
        func := cs.function } :: sc.subcommands }

/-- Model of `ScriptCommands.add_function`: parse the docstring, assemble the
`func_spec` dictionary (raising when a parameter's declared type name is not
found in `builtins`), then configure the sub-command.  On error the
sub-command table is untouched, since `_add_command` only runs after the
whole spec is built. -/
def ScriptCommands.add_function (sc : ScriptCommands) (f : PyFunction) :
    Except RegError ScriptCommands := do
  let pds := parseDoc f.doc
  let args ← buildArgs pds.params
  let spec : FuncSpec :=
    { name := f.name
      help := pds.short_description
      long_help := pyOrStr pds.long_description pds.short_description
      function := f.id
      args := args }
  .ok (sc._add_command spec)

/-- Computes `argparse`'s default for each shape: `store_true` defaults to `False`;
every other argument here defaults to `None`. -/
def defaultValue : ArgShape → NsValue
  | .storeTrue => .vBool false
  | .listPlus => .vNone
  | .optScalar _ => .vNone

/-- The value of a run of decimal digits. -/
def digitsVal (cs : List Char) : Nat :=
  cs.foldl (fun n c => n * 10 + (c.toNat - 48)) 0

/-- Model of Python's `int(str)`: an optional sign followed by a non-empty
run of decimal digits (Python additionally tolerates surrounding whitespace
and interior underscores, which no command-line token here carries). -/
def pyInt? (s : String) : Option Int :=
  match s.data with
  | '-' :: c :: cs =>
    if (c :: cs).all Char.isDigit then some (-(digitsVal (c :: cs) : Int)) else none
  | '+' :: c :: cs =>
    if (c :: cs).all Char.isDigit then some ((digitsVal (c :: cs) : Int)) else none
  | c :: cs =>
    if (c :: cs).all Char.isDigit then some ((digitsVal (c :: cs) : Int)) else none
  | [] => none

/-- Applying the configured `type` callable to one token, as `argparse`
does for each consumed value.  `int("abc")` raises → usage error; `str`
is the identity; `float` accepts a decimal literal (carried symbolically —
no claim computes with floats); `print(tok)` returns `None` and `len(tok)`
the token's length, since any callable can stand as a `type`. -/
def convertTok (t : BuiltinObj) (s : String) : Except UsageError NsValue :=
  match t with
  | .btype .pyInt =>
    match pyInt? s with
    | some n => .ok (.vInt n)
    | none => .error (.badConversion "int" s)
  | .btype .pyStr => .ok (.vStr s)
  | .btype .pyFloat =>
    if (s.data.all fun c => c.isDigit || c = '.' || c = '-') && s.data.any Char.isDigit
    then .ok (.vFloatLit s) else .error (.badConversion "float" s)
  | .btype .pyBool => .ok (.vBool (!s.data.isEmpty))
  | .btype .pyList => .ok (.vList (s.data.map fun c => String.mk [c]))
  | .btype .pyDict => .error (.badConversion "dict" s)
  | .btype .pyTuple => .ok (.vList (s.data.map fun c => String.mk [c]))
  | .bfun "len" => .ok (.vInt s.data.length)
  | .bfun _ => .ok .vNone

/-- Split off the leading run of tokens that are not option strings (the
value tokens a one-or-more argument consumes greedily). -/
def spanValues : List String → List String × List String
  | [] => ([], [])
  | t :: rest =>
    if isOption t then ([], t :: rest)
    else
      let p := spanValues rest
      (t :: p.1, p.2)

/-- Left-to-right token consumption for one sub-command, against its
configured optionals (`opts`) and its pending positionals.  An option
string selects its optional by exact match; `store_true` consumes no value,
`nargs="+"` consumes a greedy non-empty run of value tokens, `nargs="?"`
consumes at most one.  A value token goes to the next pending positional.
When the tokens run out, an unmatched `nargs="?"` positional keeps its
default and an unmatched `nargs="+"` positional is a missing required
argument. -/
def parseLoop (opts : List ArgparseArg) :
    List ArgparseArg → List String → Namespace → Except UsageError Namespace
  | [], [], ns => .ok ns
  | p :: ps, [], ns =>
    match p.shape with
    | .storeTrue => parseLoop opts ps [] (setAttr ns p.dest (.vBool true))
    | .optScalar _ => parseLoop opts ps [] ns
    | .listPlus => .error (.requiredMissing p.dest)
  | ps, tok :: rest, ns =>
    if isOption tok then
      match opts.find? (fun a => a.optionString = some tok) with
      | none => .error (.unrecognizedArgument tok)
      | some a =>
        match a.shape with
        | .storeTrue => parseLoop opts ps rest (setAttr ns a.dest (.vBool true))
        | .listPlus =>
          let pr := spanValues rest
          if pr.1.isEmpty then .error (.expectedAtLeastOne tok)
          else parseLoop opts ps pr.2 (setAttr ns a.dest (.vList pr.1))
        | .optScalar t =>
          match rest with
          | [] => parseLoop opts ps [] (setAttr ns a.dest .vNone)
          | v :: rest2 =>
            if isOption v then parseLoop opts ps (v :: rest2) (setAttr ns a.dest .vNone)
            else do
              let x ← convertTok t v
              parseLoop opts ps rest2 (setAttr ns a.dest x)
    else
      match ps with
      | [] => .error (.unrecognizedArgument tok)
      | p :: ps2 =>
        match p.shape with
        | .optScalar t => do
          let x ← convertTok t tok
          parseLoop opts ps2 rest (setAttr ns p.dest x)
        | .listPlus =>
          let pr := spanValues rest
          parseLoop opts ps2 pr.2 (setAttr ns p.dest (.vList (tok :: pr.1)))
        | .storeTrue => parseLoop opts ps2 (tok :: rest) (setAttr ns p.dest (.vBool true))
termination_by ps ts _ => ts.length + ps.length
decreasing_by
  all_goals simp_wf
  all_goals try omega
  all_goals
    (have h : ∀ us : List String, (spanValues us).2.length ≤ us.length := by
      intro us
      induction us with
      | nil => simp [spanValues]
      | cons u urest ih =>
        by_cases hu : isOption u
        · simp [spanValues, hu]
        · simp only [spanValues, hu, Bool.false_eq_true, ite_false]
          exact Nat.le_trans ih (Nat.le_succ _)
     have h2 := h rest
     omega)

/-- Parsing the tokens that follow a selected sub-command: `argparse` first
applies the sub-parser's defaults (one per argument, in the order the
arguments were added, then the `set_defaults` binding of `func`), then
consumes the tokens. -/
def parseSub (sp : SubCommand) (ts : List String) : Except UsageError Namespace :=
  let initNs : Namespace :=
    sp.args.map (fun a => (a.dest, defaultValue a.shape)) ++ [("func", .vFunc sp.func)]
  parseLoop (sp.args.filter fun a => a.optionString.isSome)
    (sp.args.filter fun a => a.optionString.isNone) ts initNs

/-- Model of `self._parser.parse_args()` on an explicit argument vector: with no
tokens the namespace only carries the sub-command destination `cmd` at its
default `None`; otherwise the first token must name a sub-command, which
then parses the remaining tokens into the same namespace. -/
def parse_args (sc : ScriptCommands) (argv : List String) :
    Except UsageError Namespace :=
  match argv with
  | [] => .ok [("cmd", .vNone)]
  | c :: rest =>
    if isOption c then .error (.unrecognizedArgument c)
    else
      match sc.subcommands.find? (fun s => s.name = c) with
      | none => .error (.invalidChoice c)
      | some sp => do
        let ns ← parseSub sp rest
        .ok (("cmd", .vStr c) :: ns)

/-- The top-level help text of the parser, as `print_help` writes it:
the configured sub-command names in registration order. -/
def print_help (sc : ScriptCommands) : String :=
  "usage: cli " ++ String.intercalate "," (sc.subcommands.reverse.map (fun s => s.name))

/-- How a `render_menu` call ends: normally, with `argparse`'s
`SystemExit` (a hard process exit on malformed input), or with the
catchable `NoArgumentsPassed` exception. -/
inductive RenderOutcome where
  | parsedOk
  | systemExit (e : UsageError)
  | noArgumentsPassed
deriving DecidableEq, Repr

/-- Model of `ScriptCommands.render_menu`: parse the argument vector, store the
result in `self._args`, and when no sub-command is selected print the
message and the help text and raise `NoArgumentsPassed`.  The returned
triple is the new object state, the lines printed to stdout, and the
outcome.  On a usage error `parse_args` raises `SystemExit` before the
assignment, so `self._args` is untouched. -/
def ScriptCommands.render_menu (sc : ScriptCommands) (argv : List String) :
    ScriptCommands × List String × RenderOutcome :=
  match parse_args sc argv with
  | .error e => (sc, [], .systemExit e)
  | .ok ns =>
    let sc2 := { sc with _args := some ns }
    if truthy (attrD ns "cmd") then (sc2, [], .parsedOk)
    else (sc2, ["no arguments passed to cli", print_help sc2], .noArgumentsPassed)

/-- Model of `ScriptCommands.execute`: `vars(self._args)` (a `TypeError` when no
parse result was ever stored), keep every attribute except the `cmd` and
`func` bookkeeping fields and except those equal to `None`, and invoke
`self._args.func` on the remaining fields as keyword arguments.  The
invocation is returned as the observable pair (callable identity, keyword
arguments in attribute order). -/
def ScriptCommands.execute (sc : ScriptCommands) :
    Except ExecError (Nat × List (String × NsValue)) :=
  match sc._args with
  | none => .error .typeErrorNoParse
  | some ns =>
    let arg_dict := ns.filter fun kv =>
      decide (kv.1 ≠ "cmd" ∧ kv.1 ≠ "func" ∧ kv.2 ≠ NsValue.vNone)
    match ns.lookup "func" with
    | some (.vFunc f) => .ok (f, arg_dict)
    | some _ => .error .typeErrorNotCallable
    | none => .error .attributeErrorNoFunc

deriving instance DecidableEq for Except

/-- The observable end of one `render_menu`-then-`execute` run. -/
inductive RunResult where
  | usageExit (e : UsageError)
  | noArgs (printed : List String)
  | executed (r : Except ExecError (Nat × List (String × NsValue)))
deriving DecidableEq, Repr

/-- The linear driver the class is written for: `render_menu` once, then
`execute` once — `execute` is reached only when `render_menu` neither
raised `NoArgumentsPassed` nor exited on a usage error. -/
def runScript (sc : ScriptCommands) (argv : List String) : RunResult :=
  match sc.render_menu argv with
  | (_, printed, .noArgumentsPassed) => .noArgs printed
  | (_, _, .systemExit e) => .usageExit e
  | (sc2, _, .parsedOk) => .executed sc2.execute

/-! ### Representative registered functions

One fixture per documented parameter shape, generic in the callable
identity and in the free help texts; the command and parameter names are
the ones of the spec's end-to-end scenarios. -/

/-- Function `toggle(verbose)` with `verbose` documented as an *optional* `bool`. -/
def boolFlagFun (fid : Nat) (sd pd : String) : PyFunction :=
  { name := "toggle"
    id := fid
    doc := some
      { short_description := some sd
        long_description := none
        params := [{ arg_name := "verbose"
                     is_optional := true
                     type_name := "bool"
                     description := some pd }] } }

/-- The registry state after registering `boolFlagFun` on a fresh
`ScriptCommands`: one sub-command `toggle` with the flag `--verbose`. -/
def boolFlagState (fid : Nat) (sd pd : String) : ScriptCommands :=
  { subcommands := [
      { name := "toggle"
        help := some sd
        description := some sd
        args := [{ dest := "verbose", optionString := some "--verbose", shape := .storeTrue, help := some pd }]
        func := fid }]
    _args := none }

/-- Function `tag(names)` with `names` documented as a required `list`. -/
def listFun (fid : Nat) (sd pd : String) : PyFunction :=
  { name := "tag"
    id := fid
    doc := some
      { short_description := some sd
        long_description := none
        params := [{ arg_name := "names"
                     is_optional := false
                     type_name := "list"
                     description := some pd }] } }

/-- The registry state after registering `listFun`: one sub-command `tag`
with a one-or-more positional `names`. -/
def listState (fid : Nat) (sd pd : String) : ScriptCommands :=
  { subcommands := [
      { name := "tag"
        help := some sd
        description := some sd
        args := [{ dest := "names", optionString := none, shape := .listPlus, help := some pd }]
        func := fid }]
    _args := none }

/-- Function `take(count)` with `count` documented as a (non-bool, non-list) `int`. -/
def intFun (fid : Nat) (sd pd : String) : PyFunction :=
  { name := "take"
    id := fid
    doc := some
      { short_description := some sd
        long_description := none
        params := [{ arg_name := "count"
                     is_optional := false
                     type_name := "int"
                     description := some pd }] } }

/-- The registry state after registering `intFun`: one sub-command `take`
with a zero-or-one positional `count` converted by `int`. -/
def intState (fid : Nat) (sd pd : String) : ScriptCommands :=
  { subcommands := [
      { name := "take"
        help := some sd
        description := some sd
        args := [{ dest := "count", optionString := none, shape := .optScalar (.btype .pyInt), help := some pd }]
        func := fid }]
    _args := none }

/-- Function `noop()` with a docstring declaring zero parameters. -/
def noParamFun (fid : Nat) (sd : String) : PyFunction :=
  { name := "noop"
    id := fid
    doc := some { short_description := some sd, long_description := none, params := [] } }

/-- The registry state after registering `noParamFun`. -/
def noParamState (fid : Nat) (sd : String) : ScriptCommands :=
  { subcommands := [
      { name := "noop", help := some sd, description := some sd, args := [], func := fid }]
    _args := none }

/-- A callable whose docstring declares a parameter of type `print`:
`print` is a `builtins` attribute but not a primitive type. -/
def printTypedFun : PyFunction :=
  { name := "report"
    id := 4
    doc := some
      { short_description := some "print a report"
        long_description := none
        params := [{ arg_name := "target"
                     is_optional := false
                     type_name := "print"
                     description := some "where to report" }] } }

/-- The registry state `printTypedFun` actually produces: the sub-command
exists, with the builtin function `print` configured as the argument's
converter. -/
def printTypedState : ScriptCommands :=
  { subcommands := [
      { name := "report"
        help := some "print a report"
        description := some "print a report"
        args := [{ dest := "target", optionString := none, shape := .optScalar (.bfun "print"), help := some "where to report" }]
        func := 4 }]
    _args := none }

/-- A callable whose docstring declares a parameter of a type name that is
no attribute of `builtins` at all. -/
def badTypeFun : PyFunction :=
  { name := "bad"
    id := 1
    doc := some
      { short_description := some "broken registration"
        long_description := none
        params := [{ arg_name := "x"
                     is_optional := false
                     type_name := "MyClass"
                     description := some "a user-defined type" }] } }

/-- A callable with no docstring at all (`__doc__ is None`). -/
def noDocFun : PyFunction :=
  { name := "mystery", doc := none, id := 3 }

/-- A registry state in the parsed phase, used to exercise `execute`
directly: result of a parse that selected a sub-command bound to callable
`5` with one flag set. -/
def execReadyState : ScriptCommands :=
  { subcommands := []
    _args := some [("cmd", .vStr "go"), ("verbose", .vBool true), ("func", .vFunc 5)] }

/-! ### Helper lemmas -/

/-- When no token of the list is an option string, the greedy one-or-more
matcher consumes the whole list in order. -/
theorem spanValues_all_values (ts : List String)
    (h : ∀ u ∈ ts, isOption u = false) : spanValues ts = (ts, []) := by
  induction ts with
  | nil => rfl
  | cons t rest ih =>
    have ht : isOption t = false := h t (List.mem_cons_self t rest)
    have hrest := ih (fun u hu => h u (List.mem_cons_of_mem t hu))
    simp [spanValues, ht, hrest]

/-- The `args` list comprehension of `add_function` fails as soon as any
parameter's type name is no attribute of `builtins`. -/
theorem buildArgs_isOk_false_of_mem (ps : List DocParam) (pa : DocParam)
    (hmem : pa ∈ ps) (hty : getattrBuiltins pa.type_name = none) :
    (buildArgs ps).isOk = false := by
  induction ps with
  | nil => cases hmem
  | cons q rest ih =>
    cases hq : getattrBuiltins q.type_name with
    | none => simp [buildArgs, hq, Except.isOk, Except.toBool]
    | some t =>
      rcases List.mem_cons.mp hmem with h | h
      · subst h
        rw [hq] at hty
        cases hty
      · have htail := ih h
        cases hb : buildArgs rest with
        | error e => simp [buildArgs, hq, hb, Except.isOk, Except.toBool, Except.bind, bind]
        | ok v => rw [hb] at htail; simp [Except.isOk, Except.toBool] at htail

/-! ### Claims -/

/-- Claim C1, counterexample.  The claim says that for an optional boolean
parameter, parsing with the flag absent makes `execute` omit the keyword
argument entirely.  In the code the `store_true` argument defaults to
`False`, which is not `None`, so `execute`'s filter keeps it: after parsing
`["toggle"]` the callable is invoked with `verbose=False`, not with no
arguments. -/
theorem bool_flag_absent_is_passed_as_false :
    runScript (boolFlagState 7 "short help" "enable verbose output") ["toggle"] =
      .executed (.ok (7, [("verbose", NsValue.vBool false)]))
    ∧ runScript (boolFlagState 7 "short help" "enable verbose output") ["toggle"] ≠
      .executed (.ok (7, [])) := by
  have h : runScript (boolFlagState 7 "short help" "enable verbose output") ["toggle"] =
      .executed (.ok (7, [("verbose", NsValue.vBool false)])) := by
    simp [runScript, ScriptCommands.render_menu, parse_args, parseSub, parseLoop,
      ScriptCommands.execute, setAttr, attrD, truthy, isOption, defaultValue, convertTok,
      List.find?, List.filter, List.lookup, spanValues, Except.bind, bind, pure, Except.pure]
  refine ⟨h, ?_⟩
  rw [h]
  decide

/-- Claim C1, amended.  Registering a command with a parameter documented as
an optional boolean configures a `--`-prefixed `store_true` flag; parsing
with the flag present makes `execute` pass the keyword argument as `True`,
while parsing with the flag absent makes `execute` pass it as `False`
(argparse's `store_true` default) — the argument is *not* omitted, since
only `None`-valued fields are dropped. -/
theorem bool_flag_present_true_absent_false (fid : Nat) (sd pd : String) :
    ScriptCommands.init.add_function (boolFlagFun fid sd pd) = .ok (boolFlagState fid sd pd)
    ∧ runScript (boolFlagState fid sd pd) ["toggle", "--verbose"] =
        .executed (.ok (fid, [("verbose", NsValue.vBool true)]))
    ∧ runScript (boolFlagState fid sd pd) ["toggle"] =
        .executed (.ok (fid, [("verbose", NsValue.vBool false)])) := by
  refine ⟨rfl, ?_, ?_⟩ <;>
    simp [runScript, ScriptCommands.render_menu, parse_args, parseSub, parseLoop,
      ScriptCommands.execute, setAttr, attrD, truthy, isOption, defaultValue, convertTok,
      List.find?, List.filter, List.lookup, spanValues, Except.bind, bind, pure, Except.pure]

/-- Claim C2, counterexample.  The claim says a declared parameter type name
outside the known primitive set makes `register` raise and add no
sub-command.  The code resolves the type name against the whole `builtins`
namespace, so the non-primitive name `print` resolves (to the builtin
function `print`), the registration succeeds, and a sub-command *is* added,
with `print` installed as the argument's converter. -/
theorem print_typed_param_registers_successfully :
    getattrBuiltins "print" = some (.bfun "print")
    ∧ ScriptCommands.init.add_function printTypedFun = .ok printTypedState
    ∧ printTypedState.subcommands.length = 1 :=
  ⟨rfl, rfl, rfl⟩

/-- Claim C2, amended.  Registration fails (with the `AttributeError` that
`getattr(builtins, ·)` raises — the spec's RegistrationError) exactly when a
declared parameter type name is no attribute of the `builtins` namespace;
in that case `add_function` raises before `_add_command` runs, so no
sub-command is added and the parser state is unchanged. -/
theorem unknown_builtins_type_name_fails_registration (sc : ScriptCommands)
    (f : PyFunction) (pa : DocParam)
    (hmem : pa ∈ (parseDoc f.doc).params)
    (hty : getattrBuiltins pa.type_name = none) :
    (sc.add_function f).isOk = false := by
  have hb := buildArgs_isOk_false_of_mem (parseDoc f.doc).params pa hmem hty
  cases hba : buildArgs (parseDoc f.doc).params with
  | error e =>
    simp [ScriptCommands.add_function, hba, Except.isOk, Except.toBool, Except.bind, bind]
  | ok v => rw [hba] at hb; simp [Except.isOk, Except.toBool] at hb

/-- Witness for C2's amended theorem at the concrete function `badTypeFun`,
whose parameter `x` is documented with the unknown type name `MyClass`. -/
theorem unknown_builtins_type_name_fails_registration_witness :
    ({ arg_name := "x", is_optional := false, type_name := "MyClass",
       description := some "a user-defined type" } : DocParam) ∈ (parseDoc badTypeFun.doc).params
    ∧ getattrBuiltins "MyClass" = none
    ∧ (ScriptCommands.init.add_function badTypeFun).isOk = false :=
  ⟨by decide, rfl,
    unknown_builtins_type_name_fails_registration ScriptCommands.init badTypeFun
      { arg_name := "x", is_optional := false, type_name := "MyClass",
        description := some "a user-defined type" } (by decide) rfl⟩

/-- Claim C3, counterexample.  The claim says a missing docstring makes
`register` raise rather than silently succeed with an empty specification.
In the code `docstring_parser.parse(None)` returns an empty `Docstring`,
so registering a function with `__doc__ = None` silently succeeds and adds
a sub-command with no help text and no arguments. -/
theorem missing_docstring_registers_silently :
    ScriptCommands.init.add_function noDocFun =
      .ok { subcommands := [{ name := "mystery", help := none, description := none,
                              args := [], func := 3 }],
            _args := none } := rfl

/-- Claim C3, amended.  Registering a callable with a missing docstring does
not raise: it silently succeeds with an empty specification — the
sub-command is added with no help text, no detailed description and no
arguments.  (Only an unresolvable declared type name makes `add_function`
raise.) -/
theorem missing_docstring_yields_empty_spec_registration (sc : ScriptCommands)
    (f : PyFunction) (h : f.doc = none) :
    sc.add_function f =
      .ok { sc with subcommands :=
              { name := f.name, help := none, description := none,
                args := [], func := f.id } :: sc.subcommands } := by
  simp [ScriptCommands.add_function, parseDoc, h, buildArgs, pyOrStr,
    ScriptCommands._add_command, Except.bind, bind, pure, Except.pure]

/-- Witness for C3's amended theorem at the concrete docstring-less
function `noDocFun` on a fresh registry. -/
theorem missing_docstring_yields_empty_spec_registration_witness :
    noDocFun.doc = none
    ∧ ScriptCommands.init.add_function noDocFun =
        .ok { ScriptCommands.init with subcommands :=
                [{ name := noDocFun.name, help := none, description := none,
                   args := [], func := noDocFun.id }] } :=
  ⟨rfl, missing_docstring_yields_empty_spec_registration ScriptCommands.init noDocFun rfl⟩

/-- Claim C4, confirmed.  Whenever parsing succeeds without selecting a
sub-command (the empty argument vector is the concrete such vector: the
`cmd` destination stays at its falsy default `None`), `render_menu` prints
the "no arguments passed" message followed by the top-level help text to
stdout and raises the catchable `NoArgumentsPassed` exception — not the
`SystemExit` of a usage error — and the run never reaches `execute`. -/
theorem no_subcommand_prints_help_and_raises (sc : ScriptCommands) (argv : List String)
    (ns : Namespace) (hp : parse_args sc argv = .ok ns)
    (hcmd : truthy (attrD ns "cmd") = false) :
    sc.render_menu argv =
      ({ sc with _args := some ns }, ["no arguments passed to cli", print_help sc],
        RenderOutcome.noArgumentsPassed)
    ∧ runScript sc argv = .noArgs ["no arguments passed to cli", print_help sc] := by
  have h1 : sc.render_menu argv =
      ({ sc with _args := some ns }, ["no arguments passed to cli", print_help sc],
        RenderOutcome.noArgumentsPassed) := by
    simp [ScriptCommands.render_menu, hp, hcmd, print_help]
  exact ⟨h1, by simp [runScript, h1]⟩

/-- Witness for C4 at the empty argument vector on a fresh registry. -/
theorem no_subcommand_prints_help_and_raises_witness :
    parse_args ScriptCommands.init [] = .ok [("cmd", NsValue.vNone)]
    ∧ truthy (attrD [("cmd", NsValue.vNone)] "cmd") = false
    ∧ runScript ScriptCommands.init [] =
        .noArgs ["no arguments passed to cli", print_help ScriptCommands.init] :=
  ⟨rfl, rfl,
    (no_subcommand_prints_help_and_raises ScriptCommands.init [] [("cmd", NsValue.vNone)]
      rfl rfl).2⟩

/-- Claim C5, counterexample.  The claim says the parsed result is stored
only in the branch where a sub-command was selected, leaving the stored
state unchanged on the failure path.  The code assigns
`self._args = self._parser.parse_args()` *before* the missing-sub-command
check: starting from a fresh registry (`_args = None`), after
`render_menu([])` ends in `NoArgumentsPassed` the stored state has changed
to the parsed namespace with `cmd = None`. -/
theorem render_menu_stores_args_on_failure_path :
    ScriptCommands.init._args = none
    ∧ (ScriptCommands.init.render_menu []).2.2 = RenderOutcome.noArgumentsPassed
    ∧ (ScriptCommands.init.render_menu []).1._args = some [("cmd", NsValue.vNone)] :=
  ⟨rfl, rfl, rfl⟩

/-- Claim C5, amended.  `render_menu` stores the parsed result
unconditionally, before the missing-sub-command check: whenever
`parse_args` returns a namespace (also on the no-sub-command failure path),
that namespace is stored in `self._args`. -/
theorem render_menu_stores_result_unconditionally (sc : ScriptCommands)
    (argv : List String) (ns : Namespace) (hp : parse_args sc argv = .ok ns) :
    (sc.render_menu argv).1._args = some ns := by
  simp only [ScriptCommands.render_menu, hp]
  split <;> rfl

/-- Witness for C5's amended theorem at the empty argument vector. -/
theorem render_menu_stores_result_unconditionally_witness :
    parse_args ScriptCommands.init [] = .ok [("cmd", NsValue.vNone)]
    ∧ (ScriptCommands.init.render_menu []).1._args = some [("cmd", NsValue.vNone)] :=
  ⟨rfl,
    render_menu_stores_result_unconditionally ScriptCommands.init [] [("cmd", NsValue.vNone)]
      rfl⟩

/-- Claim C6, confirmed.  A parameter documented as `list` becomes a
one-or-more positional: parsing the command name followed by any non-empty
run of value tokens (none of them option strings) collects exactly those
tokens, in input order, and `execute` passes exactly that sequence as the
keyword argument — concretely, `["tag", "a", "b", "c"]` makes `execute`
call the callable with `names=["a","b","c"]`. -/
theorem list_param_preserves_token_order (fid : Nat) (sd pd : String)
    (ts : List String) (hne : ts ≠ [])
    (hval : ∀ u ∈ ts, isOption u = false) :
    ScriptCommands.init.add_function (listFun fid sd pd) = .ok (listState fid sd pd)
    ∧ runScript (listState fid sd pd) ("tag" :: ts) =
        .executed (.ok (fid, [("names", NsValue.vList ts)])) := by
  refine ⟨rfl, ?_⟩
  obtain ⟨t, ts', rfl⟩ : ∃ t ts', ts = t :: ts' := by
    cases ts with
    | nil => exact absurd rfl hne
    | cons a b => exact ⟨a, b, rfl⟩
  have ht : isOption t = false := hval t (List.mem_cons_self t ts')
  have hspan : spanValues ts' = (ts', []) :=
    spanValues_all_values ts' (fun u hu => hval u (List.mem_cons_of_mem t hu))
  have htag : isOption "tag" = false := rfl
  simp [runScript, ScriptCommands.render_menu, parse_args, parseSub, parseLoop,
    ScriptCommands.execute, setAttr, attrD, truthy, defaultValue, convertTok,
    List.find?, List.filter, List.lookup, ht, htag, hspan, Except.bind, bind, pure,
    Except.pure]

/-- Witness for C6 at the spec's end-to-end scenario `["tag","a","b","c"]`. -/
theorem list_param_preserves_token_order_witness :
    (["a", "b", "c"] : List String) ≠ []
    ∧ runScript (listState 8 "short help" "names to tag") ["tag", "a", "b", "c"] =
        .executed (.ok (8, [("names", NsValue.vList ["a", "b", "c"])])) :=
  ⟨by decide,
    (list_param_preserves_token_order 8 "short help" "names to tag" ["a", "b", "c"]
      (by decide) (by decide)).2⟩

/-- Claim C7, confirmed.  A parameter documented as a non-boolean, non-list
primitive type (here `int`) becomes a zero-or-one positional: supplying no
token leaves the destination at the absent marker `None` and `execute`
omits the keyword argument; supplying one convertible token passes the
converted value; supplying one unconvertible token is a usage error
(`SystemExit` from argparse), so `execute` is never reached. -/
theorem scalar_param_zero_or_one_token (fid : Nat) (sd pd s t : String) (n : Int)
    (hs : pyInt? s = some n) (hsv : isOption s = false)
    (ht : pyInt? t = none) (htv : isOption t = false) :
    ScriptCommands.init.add_function (intFun fid sd pd) = .ok (intState fid sd pd)
    ∧ runScript (intState fid sd pd) ["take"] = .executed (.ok (fid, []))
    ∧ runScript (intState fid sd pd) ["take", s] =
        .executed (.ok (fid, [("count", NsValue.vInt n)]))
    ∧ runScript (intState fid sd pd) ["take", t] = .usageExit (.badConversion "int" t) := by
  have htake : isOption "take" = false := rfl
  refine ⟨rfl, ?_, ?_, ?_⟩ <;>
    simp [runScript, ScriptCommands.render_menu, parse_args, parseSub, parseLoop,
      ScriptCommands.execute, setAttr, attrD, truthy, defaultValue, convertTok,
      List.find?, List.filter, List.lookup, spanValues, hs, hsv, ht, htv, htake,
      Except.bind, bind, pure, Except.pure]

/-- Witness for C7 at the tokens `"5"` (converts to `5`) and `"abc"`
(conversion fails). -/
theorem scalar_param_zero_or_one_token_witness :
    pyInt? "5" = some 5
    ∧ pyInt? "abc" = none
    ∧ runScript (intState 9 "short help" "how many") ["take", "5"] =
        .executed (.ok (9, [("count", NsValue.vInt 5)]))
    ∧ runScript (intState 9 "short help" "how many") ["take", "abc"] =
        .usageExit (.badConversion "int" "abc") := by
  have h := scalar_param_zero_or_one_token 9 "short help" "how many" "5" "abc" 5
    (by decide) (by decide) (by decide) (by decide)
  exact ⟨by decide, by decide, h.2.2.1, h.2.2.2⟩

/-- Claim C8, confirmed.  For a registered command whose docstring declares
zero parameters, parsing the argument vector consisting of just the
command's name succeeds, and `execute` invokes the bound callable with no
keyword arguments at all (the namespace holds only the `cmd` and `func`
bookkeeping fields, both stripped). -/
theorem zero_param_command_executes_with_no_arguments (fid : Nat) (sd : String) :
    ScriptCommands.init.add_function (noParamFun fid sd) = .ok (noParamState fid sd)
    ∧ runScript (noParamState fid sd) ["noop"] = .executed (.ok (fid, [])) := by
  refine ⟨rfl, ?_⟩
  simp [runScript, ScriptCommands.render_menu, parse_args, parseSub, parseLoop,
    ScriptCommands.execute, setAttr, attrD, truthy, isOption, defaultValue, convertTok,
    List.find?, List.filter, List.lookup, spanValues, Except.bind, bind, pure, Except.pure]

/-- Claim C9, confirmed.  Calling `execute` before any successful parse
(`self._args` still `None`) raises immediately: `vars(None)` is a
`TypeError`.  It never returns a value and never silently no-ops. -/
theorem execute_before_parse_raises (sc : ScriptCommands) (h : sc._args = none) :
    sc.execute = .error .typeErrorNoParse := by
  simp [ScriptCommands.execute, h]

/-- Witness for C9 on a freshly constructed registry. -/
theorem execute_before_parse_raises_witness :
    ScriptCommands.init._args = none
    ∧ ScriptCommands.init.execute = .error .typeErrorNoParse :=
  ⟨rfl, execute_before_parse_raises ScriptCommands.init rfl⟩

/-- Claim C10, confirmed.  Whatever state the registry is in, whenever
`execute` reaches an invocation, the keyword dictionary it builds excludes
the keys `cmd` and `func`: every keyword argument passed to the callable
is named neither `cmd` nor `func`, so a parameter documented under one of
those names can never be received through this registry. -/
theorem execute_never_passes_cmd_or_func (sc : ScriptCommands) (f : Nat)
    (kw : List (String × NsValue)) (h : sc.execute = .ok (f, kw))
    (p : String × NsValue) (hp : p ∈ kw) :
    p.1 ≠ "cmd" ∧ p.1 ≠ "func" := by
  cases hargs : sc._args with
  | none => simp [ScriptCommands.execute, hargs] at h
  | some ns =>
    simp only [ScriptCommands.execute, hargs] at h
    cases hlk : ns.lookup "func" with
    | none => rw [hlk] at h; cases h
    | some v =>
      rw [hlk] at h
      cases v with
      | vFunc g =>
        simp only [Except.ok.injEq, Prod.mk.injEq] at h
        rw [← h.2] at hp
        have hmem := List.of_mem_filter hp
        simp only [decide_eq_true_eq] at hmem
        exact ⟨hmem.1, hmem.2.1⟩
      | vNone => cases h
      | vBool b => cases h
      | vInt n => cases h
      | vStr s => cases h
      | vFloatLit s => cases h
      | vList xs => cases h

/-- Witness for C10 at a parsed state whose namespace holds `cmd`, one real
argument and `func`: the one keyword argument `execute` passes is named
neither `cmd` nor `func`. -/
theorem execute_never_passes_cmd_or_func_witness :
    execReadyState.execute = .ok (5, [("verbose", NsValue.vBool true)])
    ∧ ("verbose", NsValue.vBool true) ∈ [("verbose", NsValue.vBool true)]
    ∧ ("verbose", NsValue.vBool true).1 ≠ "cmd"
    ∧ ("verbose", NsValue.vBool true).1 ≠ "func" :=
  ⟨rfl, by decide,
    (execute_never_passes_cmd_or_func execReadyState 5 [("verbose", NsValue.vBool true)]
      rfl ("verbose", NsValue.vBool true) (by decide)).1,
    (execute_never_passes_cmd_or_func execReadyState 5 [("verbose", NsValue.vBool true)]
      rfl ("verbose", NsValue.vBool true) (by decide)).2⟩

end CliScript
